import Mathlib

/-!
Verification of the order/payment workflow and revenue-aggregation core of the
booking-tutor backend.

Embedding conventions: the Mongo document store is a record of lists of
documents; ObjectIds are modelled as Nat, minted from a counter in the store
state; JavaScript numbers holding money amounts are modelled as Int (the
amounts flowing through this core are integral VND amounts) and derived
revenue figures as exact rationals; async service functions become pure state
transformers returning an Except result paired with the new store state; the
http-errors constructors BadRequest and NotFound become an explicit error
type.  The node crypto HMAC-SHA-512 hex digest is an external collaborator
and is passed to the signer as an abstract function argument.
-/

namespace TutorBooking

/-- Order.status enum from the order schema: Pending, Completed, Cancelled. -/
inductive OrderStatus where
  | Pending
  | Completed
  | Cancelled
  deriving DecidableEq, Repr

/-- A calendar timestamp (the month field is the 1-based calendar month,
matching the value produced by the Mongo month operator and by the JS
getMonth() + 1). -/
structure DateTime where
  year : Int
  month : Nat
  day : Nat
  hour : Nat
  minute : Nat
  second : Nat
  deriving DecidableEq, Repr

/-- Account document (fields used by this core). -/
structure Account where
  id : Nat
  fullName : String
  email : String
  role : String
  status : String
  balance : Int
  deriving DecidableEq, Repr

/-- Course document (course schema). -/
structure Course where
  id : Nat
  name : String
  price : Int
  createdBy : Nat
  isActive : Bool
  deriving DecidableEq, Repr

/-- PaymentMethod document (payment method schema). -/
structure PaymentMethod where
  id : Nat
  name : String
  deriving DecidableEq, Repr

/-- Order document (order schema), with the createdAt timestamp added by the
schema timestamps option. -/
structure Order where
  id : Nat
  account : Nat
  paymentMethod : Nat
  totalAmount : Int
  status : OrderStatus
  createdAt : DateTime
  deriving DecidableEq, Repr

/-- OrderDetail document (order detail schema). -/
structure OrderDetail where
  order : Nat
  course : Nat
  quantity : Int
  price : Int
  isFinishCourse : Bool
  timeFinishCourse : Option DateTime
  certificateOfCompletion : Option String
  deriving DecidableEq, Repr

/-- The document store: one list of documents per collection, plus a counter
minting fresh ObjectIds. -/
structure DB where
  nextId : Nat
  accounts : List Account
  courses : List Course
  paymentMethods : List PaymentMethod
  orders : List Order
  orderDetails : List OrderDetail
  deriving DecidableEq, Repr

/-- The http-errors constructors used by the order service. -/
inductive HttpError where
  | badRequest (msg : String)
  | notFound (msg : String)
  deriving DecidableEq, Repr

/-- The filter used by Order.findOne in updateOrderStatus: match on both the
document id and the owning account. -/
def ownedOrder (orderId accountId : Nat) (o : Order) : Bool :=
  o.id == orderId && o.account == accountId

/-- Persisting a modified order document: mongoose save replaces the stored
document with the same id. -/
def saveOrder (orders : List Order) (upd : Order) : List Order :=
  orders.map (fun o => if o.id == upd.id then upd else o)

/-- Response payload of updateOrderStatus (the data field). -/
structure UpdateResult where
  orderId : Nat
  deriving DecidableEq, Repr

/-- orderService.updateOrderStatus: validate presence of orderId, find the
order owned by the caller, reject if already Completed, otherwise set the
status to Completed and save.  The missing orderId case models the JS falsy
check on the input. -/
def updateOrderStatus (st : DB) (orderId? : Option Nat) (accountId : Nat) :
    Except HttpError UpdateResult × DB :=
  match orderId? with
  | none => (.error (.badRequest "Order ID is required"), st)
  | some orderId =>
    match st.orders.find? (ownedOrder orderId accountId) with
    | none => (.error (.notFound "Order not found or unauthorized"), st)
    | some order =>
      if order.status = OrderStatus.Completed then
        (.error (.badRequest "Order is already paid"), st)
      else
        let upd := { order with status := OrderStatus.Completed }
        (.ok ⟨orderId⟩, { st with orders := saveOrder st.orders upd })

/-! ### Payment URL signer (VNPay URL construction inside createOrder) -/

/-- Upper-case hexadecimal digit for a value below 16. -/
def hexDigitChar (n : Nat) : Char :=
  if n < 10 then Char.ofNat (48 + n) else Char.ofNat (55 + n)

/-- Bytes kept verbatim by the URLSearchParams form serializer: ASCII
alphanumerics and the characters star, minus, dot, underscore. -/
def isUnreservedByte (n : Nat) : Bool :=
  (48 ≤ n && n ≤ 57) || (65 ≤ n && n ≤ 90) || (97 ≤ n && n ≤ 122) ||
    n == 42 || n == 45 || n == 46 || n == 95

/-- Serialization of one UTF-8 byte under the form-urlencoded rules: keep
unreserved bytes, turn space into a plus sign, percent-encode the rest. -/
def encodeByteForm (n : Nat) : String :=
  if isUnreservedByte n then String.singleton (Char.ofNat n)
  else if n == 32 then "+"
  else "%" ++ String.singleton (hexDigitChar (n / 16)) ++
    String.singleton (hexDigitChar (n % 16))

/-- URLSearchParams percent-encoding of a name or value, applied to the
UTF-8 bytes of the string. -/
def formEncode (s : String) : String :=
  String.join ((s.toUTF8.toList.map (fun b => b.toNat)).map encodeByteForm)

/-- Lexicographic comparison on code units, the default comparator of the JS
array sort applied to the parameter keys (the keys are ASCII). -/
def codeUnitsLt : List Char → List Char → Bool
  | _, [] => false
  | [], _ :: _ => true
  | a :: as, b :: bs =>
    if a.toNat < b.toNat then true
    else if b.toNat < a.toNat then false
    else codeUnitsLt as bs

/-- Key ordering used when sorting the payment parameters. -/
def strLt (a b : String) : Bool := codeUnitsLt a.toList b.toList

/-- Executable strict sortedness of a key list under the code unit order:
every adjacent pair is strictly ascending. -/
def keysStrictSorted : List String → Bool
  | [] => true
  | [_] => true
  | a :: b :: t => strLt a b && keysStrictSorted (b :: t)

/-- Insert one parameter into an already sorted parameter list. -/
def insertParam (p : String × String) :
    List (String × String) → List (String × String)
  | [] => [p]
  | q :: t => if strLt p.1 q.1 then p :: q :: t else q :: insertParam p t

/-- Sorting the parameter map by key, as done by Object.keys(...).sort()
followed by the insertion-ordered rebuild of the object. -/
def sortParams (l : List (String × String)) : List (String × String) :=
  l.foldr insertParam []

/-- Fixed merchant code from the order service. -/
def vnp_TmnCode : String := "9TKDVWYK"

/-- Fixed shared secret from the order service. -/
def vnp_HashSecret : String := "LH6SD44ECTBWU1PHK3D2YCOI5HLUWGPH"

/-- Inputs of the signer: transaction reference (the order id rendered as a
string), total amount in the major unit, course display name, client IP, and
the already formatted creation timestamp.  Passing the timestamp as an input
makes the ambient clock explicit. -/
structure PayInput where
  txnRef : String
  amount : Int
  courseName : String
  ip : String
  createDate : String
  deriving DecidableEq, Repr

/-- The flat parameter map built by createOrder, in source order.  The amount
is scaled by 100 to the minor unit before being rendered. -/
def paymentParams (p : PayInput) : List (String × String) :=
  [("vnp_Version", "2.1.0"),
   ("vnp_Command", "pay"),
   ("vnp_TmnCode", vnp_TmnCode),
   ("vnp_Amount", toString (p.amount * 100)),
   ("vnp_CurrCode", "VND"),
   ("vnp_TxnRef", p.txnRef),
   ("vnp_OrderInfo", "Payment for course: " ++ p.courseName),
   ("vnp_OrderType", "250000"),
   ("vnp_Locale", "vn"),
   ("vnp_ReturnUrl", "http://localhost:3000?orderId=" ++ p.txnRef),
   ("vnp_IpAddr", p.ip),
   ("vnp_CreateDate", p.createDate)]

/-- The canonical query string: parameters sorted by key, each key and value
percent-encoded, joined with ampersands. -/
def canonicalQuery (p : PayInput) : String :=
  String.intercalate "&"
    ((sortParams (paymentParams p)).map (fun kv =>
      formEncode kv.1 ++ "=" ++ formEncode kv.2))

/-- Fixed base path of the payment gateway. -/
def vnpayBase : String := "https://sandbox.vnpayment.vn/paymentv2/vpcpay.html"

/-- The signed redirect URL: canonical query string, then the hex digest of
the keyed hash over that query string appended as the vnp_SecureHash
parameter.  The hmac argument abstracts the node crypto HMAC-SHA-512 hex
digest, taking the secret and the message. -/
def vnpayUrl (hmac : String → String → String) (p : PayInput) : String :=
  let queryString := canonicalQuery p
  let secureHash := hmac vnp_HashSecret queryString
  vnpayBase ++ "?" ++ queryString ++ "&vnp_SecureHash=" ++ secureHash

/-- Two-digit zero padding, as padStart(2, "0") on the rendered number. -/
def pad2 (n : Nat) : String :=
  let s := toString n
  if s.length < 2 then "0" ++ s else s

/-- The dateFormat helper of the order service applied to its default format
string yyyymmddHHMMss.  The month field of DateTime is already 1-based, so it
corresponds to getMonth() + 1 in the source. -/
def dateFormat (d : DateTime) : String :=
  ((((("yyyymmddHHMMss".replace "yyyy" (toString d.year)).replace
    "mm" (pad2 d.month)).replace "dd" (pad2 d.day)).replace
    "HH" (pad2 d.hour)).replace "MM" (pad2 d.minute)).replace
    "ss" (pad2 d.second)

/-! ### Order creation -/

/-- Response payload of createOrder (the data field). -/
structure CreateResult where
  orderId : Nat
  url : String
  deriving DecidableEq, Repr

/-- orderService.createOrder: validate presence of both ids, require an
existing active course and an existing account, find or lazily create the
VNPay payment method, persist the order with status Pending and the order
detail with quantity 1 and the snapshotted course price, and build the signed
gateway URL.  The now argument is the ambient clock, clientIp models req.ip
with its loopback fallback, and hmac abstracts the crypto digest. -/
def createOrder (hmac : String → String → String) (now : DateTime)
    (clientIp : Option String) (st : DB)
    (courseId? accountId? : Option Nat) : Except HttpError CreateResult × DB :=
  match courseId?, accountId? with
  | some courseId, some accountId =>
    match st.courses.find? (fun c => c.id == courseId) with
    | none => (.error (.notFound "Course not found or inactive"), st)
    | some course =>
      if !course.isActive then
        (.error (.notFound "Course not found or inactive"), st)
      else
        match st.accounts.find? (fun a => a.id == accountId) with
        | none => (.error (.notFound "Account not found"), st)
        | some _account =>
          let found := st.paymentMethods.find? (fun m => m.name == "VNPay")
          let paymentMethod : PaymentMethod :=
            match found with
            | some pm => pm
            | none => ⟨st.nextId, "VNPay"⟩
          let st₁ : DB :=
            match found with
            | some _ => st
            | none =>
              { st with nextId := st.nextId + 1,
                        paymentMethods := st.paymentMethods ++ [paymentMethod] }
          let quantity : Int := 1
          let totalAmount := course.price * quantity
          let order : Order :=
            ⟨st₁.nextId, accountId, paymentMethod.id, totalAmount,
              OrderStatus.Pending, now⟩
          let st₂ : DB :=
            { st₁ with nextId := st₁.nextId + 1, orders := st₁.orders ++ [order] }
          let detail : OrderDetail :=
            ⟨order.id, courseId, quantity, course.price, false, none, none⟩
          let st₃ : DB := { st₂ with orderDetails := st₂.orderDetails ++ [detail] }
          let url := vnpayUrl hmac
            ⟨toString order.id, totalAmount, course.name,
              clientIp.getD "127.0.0.1", dateFormat now⟩
          (.ok ⟨order.id, url⟩, st₃)
  | _, _ => (.error (.badRequest "Course ID and account ID are required"), st)

/-! ### Revenue aggregation (dashboard service) -/

/-- Composite of toFixed(2) followed by parseFloat, on exact rationals: round
to two decimal places, ties away from zero on the magnitude (the ECMA toFixed
rule). -/
def toFixed2 (q : ℚ) : ℚ :=
  if q < 0 then -((⌊(-q) * 100 + 1 / 2⌋ : ℚ) / 100)
  else (⌊q * 100 + 1 / 2⌋ : ℚ) / 100

/-- The aggregation match stage: orders created within the calendar year and
with status Completed.  The date window from Jan 1 of the year inclusive to
Jan 1 of the next year exclusive is exactly the set of timestamps whose year
component equals the given year. -/
def matchStage (orders : List Order) (year : Int) : List Order :=
  orders.filter (fun o =>
    o.createdAt.year == year && decide (o.status = OrderStatus.Completed))

/-- The documents falling into the group of one calendar month. -/
def monthGroup (orders : List Order) (year : Int) (m : Nat) : List Order :=
  (matchStage orders year).filter (fun o => o.createdAt.month == m)

/-- The group stage output for one month: the summed totalAmount when the
group is nonempty, nothing otherwise (empty groups are not emitted). -/
def monthTotal (orders : List Order) (year : Int) (m : Nat) : Option Int :=
  let g := monthGroup orders year m
  if g.isEmpty then none else some ((g.map Order.totalAmount).sum)

/-- The aggregation result: one pair per nonempty month group, keyed by the
1-based month, in ascending month order (the sort stage). -/
def revenueData (orders : List Order) (year : Int) : List (Nat × Int) :=
  (List.range 12).filterMap
    (fun j => (monthTotal orders year (j + 1)).map (fun t => (j + 1, t)))

/-- One entry of the monthly revenue report. -/
structure MonthRevenue where
  month : Nat
  revenue : ℚ
  deriving DecidableEq, Repr

/-- One step of the forEach loop of getMonthlyRevenue: write 15 percent of
the month total, rounded to two decimals, at the slot of that month. -/
def assignMonth (acc : Nat → ℚ) (p : Nat × Int) : Nat → ℚ :=
  fun m => if m == p.1 then toFixed2 ((p.2 : ℚ) * (15 / 100)) else acc m

/-- StatsService.getMonthlyRevenue: start from an array of 12 zeros, assign
15 percent of each month total rounded to two decimals at the index month
minus one, and emit the 12 entries with their 1-based month numbers; reading
slot m of the filled array is reading the fold of assignMonth at m. -/
def getMonthlyRevenue (orders : List Order) (year : Int) : List MonthRevenue :=
  (List.range 12).map (fun i =>
    ⟨i + 1, ((revenueData orders year).foldl assignMonth (fun _ => 0)) (i + 1)⟩)

/-- Stated from the words of the specification, for comparison with the
aggregation pipeline: the completed orders of one calendar month of one
year. -/
def specCompletedMonthOrders (orders : List Order) (year : Int) (m : Nat) :
    List Order :=
  orders.filter (fun o =>
    decide (o.status = OrderStatus.Completed) &&
      o.createdAt.year == year && o.createdAt.month == m)

/-- Stated from the words of the specification: the sum of totalAmount over
the completed orders of one calendar month. -/
def specCompletedMonthSum (orders : List Order) (year : Int) (m : Nat) : Int :=
  ((specCompletedMonthOrders orders year m).map Order.totalAmount).sum

/-! ### Top performer queries -/

/-- First-occurrence deduplication of the grouping keys, standing for the
distinct group ids of the aggregation group stage. -/
def dedupKeys : List Nat → List Nat
  | [] => []
  | a :: t => a :: dedupKeys (t.filter (fun b => !(b == a)))
termination_by l => l.length
decreasing_by
  simp only [List.length_cons]
  exact Nat.lt_succ_of_le (List.length_filter_le _ _)

/-- Insertion into a list sorted by descending count. -/
def insertByCountDesc {α : Type} (count : α → Nat) (x : α) :
    List α → List α
  | [] => [x]
  | y :: t =>
    if count y < count x then x :: y :: t else y :: insertByCountDesc count x t

/-- Sort stage on descending count. -/
def sortByCountDesc {α : Type} (count : α → Nat) (l : List α) : List α :=
  l.foldr (insertByCountDesc count) []

/-- Projected result of the top account query. -/
structure TopAccount where
  accountId : Nat
  fullName : String
  email : String
  completedCourses : Nat
  deriving DecidableEq, Repr

/-- StatsService.getTopAccountByCompletedCourses: match order details with
isFinishCourse, join each to its order (details without an order are dropped
by the unwind), group by the ordering account counting the details, sort by
count descending, keep the top group, join it to its account document, and
return it, or null when nothing qualifies. -/
def getTopAccountByCompletedCourses (db : DB) : Option TopAccount :=
  let matched := db.orderDetails.filter (fun d => d.isFinishCourse)
  let withOrder := matched.filterMap
    (fun d => db.orders.find? (fun o => o.id == d.order))
  let keys := dedupKeys (withOrder.map Order.account)
  let groups := keys.map
    (fun a => (a, (withOrder.filter (fun o => o.account == a)).length))
  let sorted := sortByCountDesc (fun g => g.2) groups
  match sorted.head? with
  | none => none
  | some (a, c) =>
    match db.accounts.find? (fun acc => acc.id == a) with
    | none => none
    | some acc => some ⟨a, acc.fullName, acc.email, c⟩

/-- One group of the top tutor aggregation. -/
structure TutorGroup where
  tutorId : Nat
  fullName : String
  email : String
  completedCourses : Nat
  deriving DecidableEq, Repr

/-- Projected result of the top tutor query. -/
structure TopTutor where
  fullName : String
  email : String
  completedCourses : Nat
  deriving DecidableEq, Repr

/-- getTopTutor: match order details with isFinishCourse, join each to its
course and the course creator account, keep only creators with role Tutor,
group by the tutor taking the first name and email and counting the details,
sort by count descending, and project the top group, or null when nothing
qualifies. -/
def getTopTutor (db : DB) : Option TopTutor :=
  let tutors := (db.orderDetails.filter (fun d => d.isFinishCourse)).filterMap
    (fun d =>
      (db.courses.find? (fun c => c.id == d.course)).bind (fun c =>
        (db.accounts.find? (fun a => a.id == c.createdBy)).bind (fun a =>
          if a.role == "Tutor" then some a else none)))
  let keys := dedupKeys (tutors.map Account.id)
  let groups : List TutorGroup := keys.filterMap (fun i =>
    ((tutors.filter (fun a => a.id == i)).head?).map (fun a =>
      ⟨i, a.fullName, a.email, (tutors.filter (fun x => x.id == i)).length⟩))
  let sorted := sortByCountDesc TutorGroup.completedCourses groups
  (sorted.head?).map (fun g => ⟨g.fullName, g.email, g.completedCourses⟩)

/-! ### Dashboard revenue route handler -/

/-- Value of one character as a digit in the given base, matching the digit
sets accepted by the JS parseInt for bases 10 and 16. -/
def digitValue (base : Nat) (c : Char) : Option Nat :=
  if 48 ≤ c.toNat && c.toNat ≤ 57 && c.toNat - 48 < base then
    some (c.toNat - 48)
  else if base == 16 && (65 ≤ c.toNat && c.toNat ≤ 70) then some (c.toNat - 55)
  else if base == 16 && (97 ≤ c.toNat && c.toNat ≤ 102) then
    some (c.toNat - 87)
  else none

/-- The JS parseInt with no radix argument: strip leading whitespace, read
an optional sign, switch to base 16 after a 0x or 0X prefix, then read the
longest digit prefix; no digits means NaN, modelled as none. -/
def parseIntJS (s : String) : Option Int :=
  let cs := s.toList.dropWhile (fun c => c.isWhitespace)
  let signAndRest : Int × List Char :=
    match cs with
    | '-' :: rest => (-1, rest)
    | '+' :: rest => (1, rest)
    | _ => (1, cs)
  let baseAndRest : Nat × List Char :=
    match signAndRest.2 with
    | '0' :: 'x' :: rest => (16, rest)
    | '0' :: 'X' :: rest => (16, rest)
    | _ => (10, signAndRest.2)
  let base := baseAndRest.1
  let ds := baseAndRest.2.takeWhile (fun c => (digitValue base c).isSome)
  if ds.isEmpty then none
  else
    some (signAndRest.1 *
      (ds.foldl (fun acc c => acc * base + ((digitValue base c).getD 0)) 0 : Nat))

/-- Response of the revenue route: either a 400 payload carrying only a
message, or a 200 payload carrying the revenue list. -/
inductive RevenueResponse where
  | badRequest (msg : String)
  | ok (data : List MonthRevenue)
  deriving DecidableEq, Repr

/-- The GET /dashboard/revenue/:year handler: parse the year path parameter,
answer 400 when it is NaN, below 2000 or above the current year, and
otherwise answer 200 with the monthly revenue aggregation.  The order
collection and the current year stand for the ambient store and clock. -/
def revenueHandler (orders : List Order) (currentYear : Int)
    (yearParam : String) : RevenueResponse :=
  match parseIntJS yearParam with
  | none => .badRequest "Invalid year"
  | some year =>
    if year < 2000 ∨ currentYear < year then .badRequest "Invalid year"
    else .ok (getMonthlyRevenue orders year)

/-- A store holding a single Cancelled order owned by account 3, used to
exercise the status guard of updateOrderStatus. -/
def cancelledStore : DB :=
  ⟨5, [], [], [], [⟨1, 3, 2, 100, OrderStatus.Cancelled, ⟨2025, 1, 1, 0, 0, 0⟩⟩], []⟩

/-! ## Theorems -/

theorem find_ownedOrder_fields {l : List Order} {oid aid : Nat} {o : Order}
    (h : l.find? (ownedOrder oid aid) = some o) :
    o.id = oid ∧ o.account = aid := by
  have hp := List.find?_some h
  simp [ownedOrder] at hp
  exact hp

theorem find_saveOrder {l : List Order} {oid aid : Nat} {o : Order}
    (h : l.find? (ownedOrder oid aid) = some o) (upd : Order)
    (hid : upd.id = oid) (hacct : upd.account = aid) :
    (saveOrder l upd).find? (ownedOrder oid aid) = some upd := by
  have hupd : ownedOrder oid aid upd = true := by
    simp [ownedOrder, hid, hacct]
  induction l with
  | nil => simp at h
  | cons a t ih =>
    by_cases hpa : ownedOrder oid aid a = true
    · have haid : (a.id == upd.id) = true := by
        simp [ownedOrder] at hpa
        simp [hid, hpa.1]
      simp only [saveOrder, List.map_cons]
      rw [if_pos haid, List.find?_cons_of_pos _ hupd]
    · rw [List.find?_cons_of_neg _ (by simpa using hpa)] at h
      by_cases hida : (a.id == upd.id) = true
      · simp only [saveOrder, List.map_cons]
        rw [if_pos hida, List.find?_cons_of_pos _ hupd]
      · simp only [saveOrder, List.map_cons]
        rw [if_neg hida, List.find?_cons_of_neg _ (by simpa using hpa)]
        exact ih h

/-- C1: for an order with status Pending owned by the caller, calling
updateOrderStatus twice in sequence succeeds on the first call, setting the
status to Completed, and fails with BadRequest on the second call, leaving
the store and thus the Completed status unchanged. -/
theorem updateOrderStatus_twice (st : DB) (oid aid : Nat) (o : Order)
    (hfind : st.orders.find? (ownedOrder oid aid) = some o)
    (hpending : o.status = OrderStatus.Pending) :
    (updateOrderStatus st (some oid) aid).1 = .ok ⟨oid⟩ ∧
    ((updateOrderStatus st (some oid) aid).2.orders.find? (ownedOrder oid aid) =
      some { o with status := OrderStatus.Completed }) ∧
    ((updateOrderStatus (updateOrderStatus st (some oid) aid).2
        (some oid) aid).1 = .error (.badRequest "Order is already paid")) ∧
    ((updateOrderStatus (updateOrderStatus st (some oid) aid).2
        (some oid) aid).2 = (updateOrderStatus st (some oid) aid).2) := by
  obtain ⟨hid, hacct⟩ := find_ownedOrder_fields hfind
  have hstep : updateOrderStatus st (some oid) aid =
      (.ok ⟨oid⟩,
        { st with orders :=
            saveOrder st.orders { o with status := OrderStatus.Completed } }) := by
    simp [updateOrderStatus, hfind, hpending]
  have hfind2 : (saveOrder st.orders
      { o with status := OrderStatus.Completed }).find? (ownedOrder oid aid) =
      some { o with status := OrderStatus.Completed } :=
    find_saveOrder hfind _ hid hacct
  refine ⟨by rw [hstep], ?_, ?_, ?_⟩
  · rw [hstep]
    exact hfind2
  · rw [hstep]
    simp [updateOrderStatus, hfind2]
  · rw [hstep]
    simp [updateOrderStatus, hfind2]

theorem updateOrderStatus_twice_witness :
    (updateOrderStatus
      ⟨5, [], [], [], [⟨1, 3, 2, 100, OrderStatus.Pending, ⟨2025, 1, 1, 0, 0, 0⟩⟩], []⟩
      (some 1) 3).1 = .ok ⟨1⟩ :=
  (updateOrderStatus_twice
    ⟨5, [], [], [], [⟨1, 3, 2, 100, OrderStatus.Pending, ⟨2025, 1, 1, 0, 0, 0⟩⟩], []⟩
    1 3 ⟨1, 3, 2, 100, OrderStatus.Pending, ⟨2025, 1, 1, 0, 0, 0⟩⟩
    (by decide) (by decide)).1

/-- C2 counterexample: the status guard of updateOrderStatus only rejects
Completed orders.  On a store holding a Cancelled order owned by the caller,
the call succeeds and moves the order from Cancelled to Completed instead of
failing with BadRequest and leaving the status unchanged, so Cancelled is not
treated as a terminal state. -/
theorem cancelled_not_terminal_counterexample :
    cancelledStore.orders.map Order.status = [OrderStatus.Cancelled] ∧
    (updateOrderStatus cancelledStore (some 1) 3).1 = .ok ⟨1⟩ ∧
    ((updateOrderStatus cancelledStore (some 1) 3).2.orders.map Order.status =
      [OrderStatus.Completed]) :=
  ⟨rfl, rfl, rfl⟩

/-- C2 amended: only Completed is enforced as terminal.  An updateOrderStatus
attempt on an owned order whose status is Completed fails with BadRequest and
leaves the store unchanged; on an owned order with any other status (Pending
or Cancelled) the call succeeds and the only status ever written is
Completed. -/
theorem updateOrderStatus_completed_guard (st : DB) (oid aid : Nat) (o : Order)
    (hfind : st.orders.find? (ownedOrder oid aid) = some o) :
    (o.status = OrderStatus.Completed →
      updateOrderStatus st (some oid) aid =
        (.error (.badRequest "Order is already paid"), st)) ∧
    (o.status ≠ OrderStatus.Completed →
      (updateOrderStatus st (some oid) aid).1 = .ok ⟨oid⟩ ∧
      ((updateOrderStatus st (some oid) aid).2.orders.find?
          (ownedOrder oid aid) =
        some { o with status := OrderStatus.Completed })) := by
  obtain ⟨hid, hacct⟩ := find_ownedOrder_fields hfind
  constructor
  · intro hc
    simp [updateOrderStatus, hfind, hc]
  · intro hc
    have hfind2 := find_saveOrder hfind
      { o with status := OrderStatus.Completed } hid hacct
    constructor
    · simp [updateOrderStatus, hfind, hc]
    · simp [updateOrderStatus, hfind, hc]
      exact hfind2

theorem updateOrderStatus_completed_guard_witness :
    (updateOrderStatus cancelledStore (some 1) 3).1 = .ok ⟨1⟩ ∧
    ((updateOrderStatus cancelledStore (some 1) 3).2.orders.find?
        (ownedOrder 1 3) =
      some ⟨1, 3, 2, 100, OrderStatus.Completed, ⟨2025, 1, 1, 0, 0, 0⟩⟩) :=
  (updateOrderStatus_completed_guard cancelledStore 1 3
    ⟨1, 3, 2, 100, OrderStatus.Cancelled, ⟨2025, 1, 1, 0, 0, 0⟩⟩
    (by decide)).2 (by decide)

/-- C3: createOrder for a courseId whose course is missing from the store or
has isActive false fails with NotFound and returns the store unchanged, so no
Order, OrderDetail or PaymentMethod document is created or modified. -/
theorem createOrder_missing_or_inactive_course
    (hmac : String → String → String) (now : DateTime)
    (clientIp : Option String) (st : DB) (cid aid : Nat)
    (h : st.courses.find? (fun c => c.id == cid) = none ∨
      ∃ course, st.courses.find? (fun c => c.id == cid) = some course ∧
        course.isActive = false) :
    createOrder hmac now clientIp st (some cid) (some aid) =
      (.error (.notFound "Course not found or inactive"), st) := by
  rcases h with h | ⟨course, hc, hin⟩
  · simp [createOrder, h]
  · simp [createOrder, hc, hin]

theorem createOrder_missing_or_inactive_course_witness :
    createOrder (fun _ m => m) ⟨2025, 1, 1, 0, 0, 0⟩ none
      ⟨20, [], [⟨10, "Intro to Go", 100000, 3, false⟩], [], [], []⟩
      (some 10) (some 3) =
      (.error (.notFound "Course not found or inactive"),
        ⟨20, [], [⟨10, "Intro to Go", 100000, 3, false⟩], [], [], []⟩) :=
  createOrder_missing_or_inactive_course (fun _ m => m) ⟨2025, 1, 1, 0, 0, 0⟩
    none ⟨20, [], [⟨10, "Intro to Go", 100000, 3, false⟩], [], [], []⟩ 10 3
    (Or.inr ⟨⟨10, "Intro to Go", 100000, 3, false⟩, by decide, by decide⟩)

/-- C7: when no order in the store has both the requested id and the calling
account as owner (the order is missing, or it belongs to another account),
updateOrderStatus fails with the one NotFound error used for both situations
and returns the store unchanged. -/
theorem updateOrderStatus_unowned (st : DB) (oid aid : Nat)
    (h : st.orders.find? (ownedOrder oid aid) = none) :
    updateOrderStatus st (some oid) aid =
      (.error (.notFound "Order not found or unauthorized"), st) := by
  simp [updateOrderStatus, h]

theorem updateOrderStatus_unowned_witness :
    updateOrderStatus
      ⟨5, [], [], [], [⟨1, 7, 2, 100, OrderStatus.Pending, ⟨2025, 1, 1, 0, 0, 0⟩⟩], []⟩
      (some 1) 3 =
      (.error (.notFound "Order not found or unauthorized"),
        ⟨5, [], [], [], [⟨1, 7, 2, 100, OrderStatus.Pending, ⟨2025, 1, 1, 0, 0, 0⟩⟩], []⟩) :=
  updateOrderStatus_unowned
    ⟨5, [], [], [], [⟨1, 7, 2, 100, OrderStatus.Pending, ⟨2025, 1, 1, 0, 0, 0⟩⟩], []⟩
    1 3 (by decide)

/-- C10: createOrder, on every input and outcome, never modifies an Account
or Course document (in particular no balance is debited and no course price
or active flag changes); its only writes are the lazily created VNPay
payment method when none exists yet, plus one new Order and one new
OrderDetail on success. -/
theorem createOrder_frame (hmac : String → String → String) (now : DateTime)
    (clientIp : Option String) (st : DB) (courseId? accountId? : Option Nat) :
    ((createOrder hmac now clientIp st courseId? accountId?).2.accounts =
      st.accounts) ∧
    ((createOrder hmac now clientIp st courseId? accountId?).2.courses =
      st.courses) ∧
    ((createOrder hmac now clientIp st courseId? accountId?).2.accounts.map
        Account.balance = st.accounts.map Account.balance) ∧
    ((createOrder hmac now clientIp st courseId? accountId?).2.paymentMethods =
        st.paymentMethods ∨
      (st.paymentMethods.find? (fun m => m.name == "VNPay") = none ∧
        (createOrder hmac now clientIp st courseId? accountId?).2.paymentMethods =
          st.paymentMethods ++ [⟨st.nextId, "VNPay"⟩])) ∧
    (((createOrder hmac now clientIp st courseId? accountId?).2.orders =
        st.orders ∧
      (createOrder hmac now clientIp st courseId? accountId?).2.orderDetails =
        st.orderDetails) ∨
      (∃ o d,
        (createOrder hmac now clientIp st courseId? accountId?).2.orders =
          st.orders ++ [o] ∧
        (createOrder hmac now clientIp st courseId? accountId?).2.orderDetails =
          st.orderDetails ++ [d])) := by
  rcases courseId? with _ | cid
  · exact ⟨rfl, rfl, rfl, Or.inl rfl, Or.inl ⟨rfl, rfl⟩⟩
  rcases accountId? with _ | aid
  · exact ⟨rfl, rfl, rfl, Or.inl rfl, Or.inl ⟨rfl, rfl⟩⟩
  cases hc : st.courses.find? (fun c => c.id == cid) with
  | none =>
    refine ⟨?_, ?_, ?_, Or.inl ?_, Or.inl ⟨?_, ?_⟩⟩ <;> simp [createOrder, hc]
  | some course =>
    by_cases hact : course.isActive = true
    · cases ha : st.accounts.find? (fun a => a.id == aid) with
      | none =>
        refine ⟨?_, ?_, ?_, Or.inl ?_, Or.inl ⟨?_, ?_⟩⟩ <;>
          simp [createOrder, hc, hact, ha]
      | some acc =>
        cases hpm : st.paymentMethods.find? (fun m => m.name == "VNPay") with
        | none =>
          refine ⟨?_, ?_, ?_, Or.inr ⟨rfl, ?_⟩,
            Or.inr ⟨⟨st.nextId + 1, aid, st.nextId, course.price * 1,
                OrderStatus.Pending, now⟩,
              ⟨st.nextId + 1, cid, 1, course.price, false, none, none⟩,
              ?_, ?_⟩⟩ <;>
            simp [createOrder, hc, hact, ha, hpm]
        | some pm =>
          refine ⟨?_, ?_, ?_, Or.inl ?_,
            Or.inr ⟨⟨st.nextId, aid, pm.id, course.price * 1,
                OrderStatus.Pending, now⟩,
              ⟨st.nextId, cid, 1, course.price, false, none, none⟩,
              ?_, ?_⟩⟩ <;>
            simp [createOrder, hc, hact, ha, hpm]
    · have hact2 : course.isActive = false := by
        cases hia : course.isActive
        · rfl
        · exact absurd hia hact
      refine ⟨?_, ?_, ?_, Or.inl ?_, Or.inl ⟨?_, ?_⟩⟩ <;>
        simp [createOrder, hc, hact2]

/-- C6: on every successful createOrder, exactly one Order and exactly one
OrderDetail are appended as a pair: the Order has status Pending and
totalAmount equal to the course price times the fixed quantity 1, and the
OrderDetail references that Order and the course, has quantity 1,
isFinishCourse false, and price equal to the price of the course document as
it stood in the pre-call store (the snapshot). -/
theorem createOrder_success (hmac : String → String → String) (now : DateTime)
    (clientIp : Option String) (st : DB) (cid aid : Nat)
    (course : Course) (acc : Account)
    (hc : st.courses.find? (fun c => c.id == cid) = some course)
    (hact : course.isActive = true)
    (ha : st.accounts.find? (fun a => a.id == aid) = some acc) :
    ∃ pmId oid,
      (createOrder hmac now clientIp st (some cid) (some aid)).1 =
        .ok ⟨oid, vnpayUrl hmac ⟨toString oid, course.price * 1, course.name,
          clientIp.getD "127.0.0.1", dateFormat now⟩⟩ ∧
      ((createOrder hmac now clientIp st (some cid) (some aid)).2.orders =
        st.orders ++
          [⟨oid, aid, pmId, course.price * 1, OrderStatus.Pending, now⟩]) ∧
      ((createOrder hmac now clientIp st (some cid) (some aid)).2.orderDetails =
        st.orderDetails ++ [⟨oid, cid, 1, course.price, false, none, none⟩]) := by
  cases hpm : st.paymentMethods.find? (fun m => m.name == "VNPay") with
  | none =>
    refine ⟨st.nextId, st.nextId + 1, ?_, ?_, ?_⟩ <;>
      simp only [createOrder, hc, hact, Bool.not_true, Bool.false_eq_true,
        if_false, ha, hpm]
  | some pm =>
    refine ⟨pm.id, st.nextId, ?_, ?_, ?_⟩ <;>
      simp only [createOrder, hc, hact, Bool.not_true, Bool.false_eq_true,
        if_false, ha, hpm]

theorem createOrder_success_witness :
    ∃ pmId oid,
      (createOrder (fun _ m => m) ⟨2025, 1, 1, 0, 0, 0⟩ none
        ⟨20, [⟨3, "Alice Example", "a@example.com", "User", "Active", 0⟩],
          [⟨10, "Intro to Go", 100000, 3, true⟩], [], [], []⟩
        (some 10) (some 3)).1 =
        .ok ⟨oid, vnpayUrl (fun _ m => m)
          ⟨toString oid, 100000 * 1, "Intro to Go", "127.0.0.1",
            dateFormat ⟨2025, 1, 1, 0, 0, 0⟩⟩⟩ ∧
      ((createOrder (fun _ m => m) ⟨2025, 1, 1, 0, 0, 0⟩ none
        ⟨20, [⟨3, "Alice Example", "a@example.com", "User", "Active", 0⟩],
          [⟨10, "Intro to Go", 100000, 3, true⟩], [], [], []⟩
        (some 10) (some 3)).2.orders =
        [] ++ [⟨oid, 3, pmId, 100000 * 1, OrderStatus.Pending,
          ⟨2025, 1, 1, 0, 0, 0⟩⟩]) ∧
      ((createOrder (fun _ m => m) ⟨2025, 1, 1, 0, 0, 0⟩ none
        ⟨20, [⟨3, "Alice Example", "a@example.com", "User", "Active", 0⟩],
          [⟨10, "Intro to Go", 100000, 3, true⟩], [], [], []⟩
        (some 10) (some 3)).2.orderDetails =
        [] ++ [⟨oid, 10, 1, 100000, false, none, none⟩]) :=
  createOrder_success (fun _ m => m) ⟨2025, 1, 1, 0, 0, 0⟩ none
    ⟨20, [⟨3, "Alice Example", "a@example.com", "User", "Active", 0⟩],
      [⟨10, "Intro to Go", 100000, 3, true⟩], [], [], []⟩
    10 3 ⟨10, "Intro to Go", 100000, 3, true⟩
    ⟨3, "Alice Example", "a@example.com", "User", "Active", 0⟩
    (by decide) (by decide) (by decide)

/-- C5: the signer is a pure function of its explicit inputs including the
timestamp, so identical inputs give identical URLs (last conjunct); the
sorted parameter keys are exactly the twelve gateway keys in strictly
ascending lexicographic order; the produced URL is the fixed base path, the
canonical sorted URL-encoded query string, then the digest of the keyed hash
(the abstract hmac stands for the crypto HMAC-SHA-512 hex digest) over that
canonical query string under the shared secret, appended as the
vnp_SecureHash parameter; and the vnp_Amount parameter is the total amount
scaled by 100. -/
theorem vnpay_signer (hmac : String → String → String) (p : PayInput) :
    ((sortParams (paymentParams p)).map Prod.fst =
      ["vnp_Amount", "vnp_Command", "vnp_CreateDate", "vnp_CurrCode",
       "vnp_IpAddr", "vnp_Locale", "vnp_OrderInfo", "vnp_OrderType",
       "vnp_ReturnUrl", "vnp_TmnCode", "vnp_TxnRef", "vnp_Version"]) ∧
    keysStrictSorted
      ["vnp_Amount", "vnp_Command", "vnp_CreateDate", "vnp_CurrCode",
       "vnp_IpAddr", "vnp_Locale", "vnp_OrderInfo", "vnp_OrderType",
       "vnp_ReturnUrl", "vnp_TmnCode", "vnp_TxnRef", "vnp_Version"] = true ∧
    (vnpayUrl hmac p =
      vnpayBase ++ "?" ++ canonicalQuery p ++ "&vnp_SecureHash=" ++
        hmac vnp_HashSecret (canonicalQuery p)) ∧
    ((paymentParams p).lookup "vnp_Amount" =
      some (toString (p.amount * 100))) ∧
    (∀ q : PayInput, p = q → vnpayUrl hmac p = vnpayUrl hmac q) :=
  ⟨rfl, rfl, rfl, rfl, fun _ h => by rw [h]⟩

theorem vnpay_signer_witness :
    vnpayUrl (fun k m => k ++ m)
      ⟨"A1", 100000, "Intro to Go", "127.0.0.1", "20250101000000"⟩ =
    vnpayUrl (fun k m => k ++ m)
      ⟨"A1", 100000, "Intro to Go", "127.0.0.1", "20250101000000"⟩ :=
  (vnpay_signer (fun k m => k ++ m)
    ⟨"A1", 100000, "Intro to Go", "127.0.0.1", "20250101000000"⟩).2.2.2.2
    ⟨"A1", 100000, "Intro to Go", "127.0.0.1", "20250101000000"⟩ rfl

theorem toFixed2_zero : toFixed2 0 = 0 := by
  unfold toFixed2
  rw [if_neg (lt_irrefl (0 : ℚ))]
  have h0 : ⌊(0 : ℚ) * 100 + 1 / 2⌋ = 0 := by
    rw [Int.floor_eq_zero_iff, Set.mem_Ico]
    norm_num
  rw [h0]
  norm_num

theorem assignMonth_foldl_not_mem (l : List (Nat × Int)) (acc : Nat → ℚ)
    (m : Nat) (h : ∀ p ∈ l, p.1 ≠ m) : (l.foldl assignMonth acc) m = acc m := by
  induction l generalizing acc with
  | nil => rfl
  | cons a t ih =>
    rw [List.foldl_cons, ih _ (fun p hp => h p (List.mem_cons_of_mem _ hp))]
    have hne : (m == a.1) = false := by
      have := h a (List.mem_cons_self _ _)
      simp only [beq_eq_false_iff_ne, ne_eq]
      exact fun e => this e.symm
    simp [assignMonth, hne]

theorem assignMonth_foldl_eval (g : Nat → Option Int) (n i : Nat) (hi : i < n) :
    (((List.range n).filterMap
        (fun j => (g j).map (fun t => (j + 1, t)))).foldl
      assignMonth (fun _ => 0)) (i + 1) =
    (match g i with
     | none => 0
     | some t => toFixed2 ((t : ℚ) * (15 / 100))) := by
  induction n with
  | zero => omega
  | succ n ih =>
    rw [List.range_succ, List.filterMap_append, List.foldl_append]
    by_cases hin : i < n
    · cases hgn : g n with
      | none =>
        simp only [List.filterMap_cons, List.filterMap_nil, hgn,
          Option.map_none', List.foldl_nil]
        exact ih hin
      | some t =>
        simp only [List.filterMap_cons, List.filterMap_nil, hgn,
          Option.map_some', List.foldl_cons, List.foldl_nil]
        have hne : (i + 1 == n + 1) = false := by
          simp only [beq_eq_false_iff_ne, ne_eq]
          omega
        simp only [assignMonth, hne, Bool.false_eq_true, if_false]
        exact ih hin
    · have hieq : i = n := by omega
      subst hieq
      cases hgn : g i with
      | none =>
        simp only [List.filterMap_cons, List.filterMap_nil, hgn,
          Option.map_none', List.foldl_nil]
        apply assignMonth_foldl_not_mem
        intro p hp
        rw [List.mem_filterMap] at hp
        obtain ⟨j, hj, hpj⟩ := hp
        rw [Option.map_eq_some'] at hpj
        obtain ⟨t, hgj, hpt⟩ := hpj
        rw [List.mem_range] at hj
        rw [← hpt]
        simp only [ne_eq]
        omega
      | some t =>
        simp only [List.filterMap_cons, List.filterMap_nil, hgn,
          Option.map_some', List.foldl_cons, List.foldl_nil]
        simp [assignMonth]

theorem monthGroup_eq_spec (orders : List Order) (year : Int) (m : Nat) :
    monthGroup orders year m = specCompletedMonthOrders orders year m := by
  unfold monthGroup matchStage specCompletedMonthOrders
  rw [List.filter_filter]
  apply List.filter_congr
  intro o _
  cases h1 : (o.createdAt.month == m) <;>
    cases h2 : (o.createdAt.year == year) <;>
      cases h3 : decide (o.status = OrderStatus.Completed) <;> simp [h1, h2, h3]

/-- C4: getMonthlyRevenue always returns exactly the 12 entries for months 1
to 12 in ascending order, the entry for month m being 15 percent of the sum
of totalAmount over the Completed orders created in month m of the year
(the half-year window condition being exactly the year component), rounded
to two decimal places, and the entry of a month with no completed orders is
0. -/
theorem monthlyRevenue_entries (orders : List Order) (year : Int) :
    (getMonthlyRevenue orders year =
      (List.range 12).map (fun i =>
        ⟨i + 1, toFixed2 (((15 : ℚ) / 100) *
          (specCompletedMonthSum orders year (i + 1) : ℚ))⟩)) ∧
    (∀ i, i < 12 → specCompletedMonthOrders orders year (i + 1) = [] →
      (⟨i + 1, (0 : ℚ)⟩ : MonthRevenue) ∈ getMonthlyRevenue orders year) := by
  have hspec : ∀ m, monthTotal orders year m =
      (if (specCompletedMonthOrders orders year m).isEmpty then none
       else some (specCompletedMonthSum orders year m)) := by
    intro m
    unfold monthTotal specCompletedMonthSum
    rw [monthGroup_eq_spec]
  have hmain : getMonthlyRevenue orders year =
      (List.range 12).map (fun i =>
        ⟨i + 1, toFixed2 (((15 : ℚ) / 100) *
          (specCompletedMonthSum orders year (i + 1) : ℚ))⟩) := by
    unfold getMonthlyRevenue revenueData
    apply List.map_congr_left
    intro i hi
    have hi12 : i < 12 := List.mem_range.mp hi
    have he := assignMonth_foldl_eval
      (fun j => monthTotal orders year (j + 1)) 12 i hi12
    rw [he]
    cases hemp : (specCompletedMonthOrders orders year (i + 1)).isEmpty with
    | true =>
      have hnil : specCompletedMonthOrders orders year (i + 1) = [] :=
        List.isEmpty_iff.mp hemp
      have hsum : specCompletedMonthSum orders year (i + 1) = 0 := by
        unfold specCompletedMonthSum
        rw [hnil]
        rfl
      simp only [hspec, hemp, if_true, hsum, Int.cast_zero, mul_zero,
        toFixed2_zero]
    | false =>
      simp only [hspec, hemp, Bool.false_eq_true, if_false]
      rw [mul_comm]
  refine ⟨hmain, ?_⟩
  intro i hi hempty
  rw [hmain]
  apply List.mem_map.mpr
  refine ⟨i, List.mem_range.mpr hi, ?_⟩
  have hsum : specCompletedMonthSum orders year (i + 1) = 0 := by
    unfold specCompletedMonthSum
    rw [hempty]
    rfl
  rw [hsum]
  simp [toFixed2_zero]

theorem monthlyRevenue_entries_witness :
    specCompletedMonthOrders ([] : List Order) 2024 1 = [] ∧
    (⟨1, (0 : ℚ)⟩ : MonthRevenue) ∈ getMonthlyRevenue ([] : List Order) 2024 :=
  ⟨rfl, (monthlyRevenue_entries [] 2024).2 0 (by omega) rfl⟩

/-- Length helper: the monthly revenue report always has 12 entries. -/
theorem getMonthlyRevenue_length (orders : List Order) (year : Int) :
    (getMonthlyRevenue orders year).length = 12 := by
  simp [getMonthlyRevenue]

/-- C8: when no order detail has isFinishCourse true, both top performer
aggregations, the top account by completed courses and the top tutor, return
null rather than failing. -/
theorem topPerformer_none (db : DB)
    (h : ∀ d ∈ db.orderDetails, d.isFinishCourse = false) :
    getTopAccountByCompletedCourses db = none ∧ getTopTutor db = none := by
  have hf : db.orderDetails.filter (fun d => d.isFinishCourse) = [] := by
    rw [List.filter_eq_nil_iff]
    intro d hd
    simp [h d hd]
  constructor
  · simp [getTopAccountByCompletedCourses, hf, dedupKeys, sortByCountDesc]
  · simp [getTopTutor, hf, dedupKeys, sortByCountDesc]

theorem topPerformer_none_witness :
    getTopAccountByCompletedCourses
      ⟨9, [], [], [], [], [⟨1, 10, 1, 100000, false, none, none⟩]⟩ = none ∧
    getTopTutor
      ⟨9, [], [], [], [], [⟨1, 10, 1, 100000, false, none, none⟩]⟩ = none :=
  topPerformer_none
    ⟨9, [], [], [], [], [⟨1, 10, 1, 100000, false, none, none⟩]⟩ (by decide)

/-- C9: the revenue endpoint answers 400 with no revenue payload whenever
the year path parameter does not parse to a number or parses to a year below
2000 or above the current year, and answers the 12-entry monthly revenue
report for every in-range numeric year. -/
theorem revenueRoute_year_validation (orders : List Order) (currentYear : Int)
    (yearParam : String) :
    (parseIntJS yearParam = none →
      revenueHandler orders currentYear yearParam = .badRequest "Invalid year") ∧
    (∀ y, parseIntJS yearParam = some y → (y < 2000 ∨ currentYear < y) →
      revenueHandler orders currentYear yearParam = .badRequest "Invalid year") ∧
    (∀ y, parseIntJS yearParam = some y → 2000 ≤ y → y ≤ currentYear →
      revenueHandler orders currentYear yearParam =
        .ok (getMonthlyRevenue orders y) ∧
      (getMonthlyRevenue orders y).length = 12) := by
  refine ⟨?_, ?_, ?_⟩
  · intro h
    simp [revenueHandler, h]
  · intro y hy hr
    simp only [revenueHandler, hy]
    rw [if_pos hr]
  · intro y hy h1 h2
    refine ⟨?_, getMonthlyRevenue_length orders y⟩
    simp only [revenueHandler, hy]
    rw [if_neg (by omega)]

theorem revenueRoute_year_validation_witness :
    revenueHandler ([] : List Order) 2025 "2005" =
      .ok (getMonthlyRevenue ([] : List Order) 2005) ∧
    (getMonthlyRevenue ([] : List Order) 2005).length = 12 :=
  (revenueRoute_year_validation [] 2025 "2005").2.2 2005 (by decide)
    (by omega) (by omega)

end TutorBooking
